import Mathlib

set_option maxRecDepth 20000

/-!
Verification development for the TwistedLogic interactive-fiction front-end.
The definitions below are shallow embeddings of the TypeScript source:
services/geminiService.ts, services/textService.ts, the free-image service,
the EPUB export encoder, and the GameScreen session orchestrator.
JavaScript strings are modelled as Lean Strings; all string algorithms are
written over the underlying character lists so that they are executable and
kernel-reducible.
-/

/-- The role field of a StoryMessage (types.ts): user (protagonist) or model (narrator). -/
inductive Role where
  | user
  | model
deriving DecidableEq, Repr

/-- StoryMessage (types.ts): one turn of the transcript, with optional
image / audio assets back-filled asynchronously. -/
structure StoryMessage where
  role : Role
  text : String
  image : Option String := none
  audio : Option String := none
deriving DecidableEq, Repr

/-- GameResponse (types.ts / geminiService.ts): the normalized text-generation result. -/
structure GameResponse where
  text : String
  ended : Bool
deriving DecidableEq, Repr

/-- Which asset kind a back-fill updates (the first argument of updateLastMessageAsset). -/
inductive AssetType where
  | image
  | audio
deriving DecidableEq, Repr

/-- Does the candidate character list appear at the very front of the haystack?
List-level model of a position match used by substring search. -/
def leadsWith : List Char → List Char → Bool
  | [], _ => true
  | _ :: _, [] => false
  | a :: xs, b :: ys => a == b && leadsWith xs ys

/-- Does the needle occur anywhere inside the haystack?
List-level model of JavaScript String.prototype.includes. -/
def occursIn (needle : List Char) : List Char → Bool
  | [] => needle.isEmpty
  | c :: rest => leadsWith needle (c :: rest) || occursIn needle rest

/-- Model of JavaScript hay.includes(needle). -/
def strIncludes (hay needle : String) : Bool :=
  occursIn needle.data hay.data

/-- Propositional form of substring containment: the needle occurs verbatim in the haystack. -/
def containsStr (hay needle : String) : Prop :=
  ∃ pre post : List Char, hay.data = pre ++ needle.data ++ post

/-- Model of JavaScript s.toLowerCase() restricted to the ASCII range used by the sources. -/
def toLowerStr (s : String) : String :=
  String.mk (s.data.map Char.toLower)

/-- Global replacement of a fixed pattern, fuelled by the haystack length so the
recursion is structural. Models String.prototype.replace with a global literal regex. -/
def replaceAux (pattern repl : List Char) : Nat → List Char → List Char
  | _, [] => []
  | 0, l => l
  | fuel + 1, c :: rest =>
      if leadsWith pattern (c :: rest) then
        repl ++ replaceAux pattern repl fuel (List.drop (pattern.length - 1) rest)
      else
        c :: replaceAux pattern repl fuel rest

/-- Model of JavaScript hay.replace(pattern-as-global-regex, repl) for a nonempty literal pattern. -/
def replaceAllList (pattern repl hay : List Char) : List Char :=
  if pattern.isEmpty then hay else replaceAux pattern repl hay.length hay

/-- Model of JavaScript String.prototype.trim (ASCII whitespace). -/
def trimList (l : List Char) : List Char :=
  ((l.dropWhile Char.isWhitespace).reverse.dropWhile Char.isWhitespace).reverse

/-- The fixed system/persona instruction (geminiService.ts, SYSTEM_INSTRUCTION). -/
def SYSTEM_INSTRUCTION : String :=
  "\nYou are \"The Curator\", the mysterious and cynical host of \"Twisted Logic\".\nYour goal is to guide the user through a surreal, interactive tale of suspense, irony, and the supernatural.\nThe genre is a mix of sci-fi, horror, and psychological thriller, evoking the feel of classic 1960s anthology TV shows.\n\nRules:\n1. Speak in a sophisticated, clipped, and intellectual style. You are an observer of human folly.\n2. Start the game with an atmospheric opening monologue setting the scene for a NEW, random, strange scenario involving the player.\n3. The story is a TEXT ADVENTURE. At the end of each narration, clearly present the immediate situation and explicitly ask or wait for the user to type their action.\n4. Keep your responses concise (max 150 words) to keep the pace moving, but descriptive enough to be atmospheric.\n5. If the user does something foolish, narrate the consequences, potentially leading to a \"twist ending\" or game over where logic completely unravels.\n6. Maintain a black-and-white, noir atmosphere in your descriptions.\n"

/-- The scene-opening prompt, used to start an episode and re-injected on the external
path of continueStory when the stored history begins with a narrator turn. -/
def OPENING_PROMPT : String :=
  "Begin the episode. Set the scene and introduce the protagonist (the player) into a world where logic is twisted."

/-- checkEnded (textService.ts): end-of-game detection for plain-text provider responses. -/
def checkEnded (text : String) : Bool :=
  let lower := toLowerStr text
  strIncludes lower "[the_end]" || strIncludes lower "the end." || strIncludes lower "game over"

/-- cleanResponse (textService.ts): strips the exact-case markers and trims. -/
def cleanResponse (text : String) : String :=
  String.mk (trimList (replaceAllList "[JSON]".data [] (replaceAllList "[THE_END]".data [] text.data)))

/-- The GameResponse built by tryPollinationsText (textService.ts) from a successful
nonempty provider body. tryDeepAIText builds its result from data.output in the same way. -/
def pollinationsResult (text : String) : GameResponse :=
  { text := cleanResponse text, ended := checkEnded text }

/-- The exhausted result of the free-text fallback chain (textService.ts, generateFreeText). -/
def FREE_TEXT_EXHAUSTED : GameResponse :=
  { text := "The signal is lost in the static... (All free text generation services failed. Please try again or add an API Key).",
    ended := false }

/-- generateFreeText (textService.ts): try Pollinations, then DeepAI, then the fixed
fallback message. The arguments are the outcomes of the two candidate calls (none models
a failed candidate, whose own errors are caught and turned into undefined); the second
component of the result counts how many candidates were attempted. -/
def generateFreeText (pollResult deepResult : Option GameResponse) : GameResponse × Nat :=
  match pollResult with
  | some r => (r, 1)
  | none =>
    match deepResult with
    | some r => (r, 2)
    | none => (FREE_TEXT_EXHAUSTED, 2)

/-- JavaScript truthiness of a string-or-undefined value. -/
def jsTruthy : Option String → Bool
  | none => false
  | some s => !s.data.isEmpty

/-- generateFreeImage (free image service): primary DeepAI text2img, fallback
Pollinations; candidate outcomes are passed in, attempts are counted. -/
def generateFreeImage (deepAiUrl pollResult : Option String) : Option String × Nat :=
  if jsTruthy deepAiUrl then (deepAiUrl, 1) else (pollResult, 2)

/-- The five fixed in-fiction error texts of handleGeminiError (geminiService.ts). -/
def GEMINI_ERROR_MESSAGES : List String :=
  [ "Transmission denied. Please verify your API Key in the \x27Settings\x27 menu.",
    "Quota exceeded. Please select a different model (e.g., Gemini 2.5 Flash) in Settings, or wait a moment.",
    "The narrative veered into forbidden territory. The censors have cut the feed. Try a different action.",
    "Model frequency not found. Check your model selection in Settings.",
    "The signal is lost... reality is buffering." ]

/-- The message-classification chain of handleGeminiError (geminiService.ts),
mapping the raw error text eMsg to the in-fiction errorMsg. -/
def geminiErrorText (eMsg : String) : String :=
  if strIncludes eMsg "API_KEY_INVALID" || strIncludes eMsg "key not found" then
    "Transmission denied. Please verify your API Key in the \x27Settings\x27 menu."
  else if strIncludes eMsg "429" || strIncludes eMsg "quota" || strIncludes eMsg "RESOURCE_EXHAUSTED" then
    "Quota exceeded. Please select a different model (e.g., Gemini 2.5 Flash) in Settings, or wait a moment."
  else if strIncludes eMsg "Candidate was blocked" then
    "The narrative veered into forbidden territory. The censors have cut the feed. Try a different action."
  else if strIncludes eMsg "404" || strIncludes eMsg "Not Found" then
    "Model frequency not found. Check your model selection in Settings."
  else
    "The signal is lost... reality is buffering."

/-- handleGeminiError (geminiService.ts): classify the error text and return a
GameResponse; the source returns ended true on every branch. -/
def handleGeminiError (eMsg : String) : GameResponse :=
  { text := geminiErrorText eMsg, ended := true }

/-- The error thrown by callExternalLLM (geminiService.ts) on a non-2xx response:
it embeds the HTTP status code, status text, and response body. -/
def externalApiErrorMessage (status : Nat) (statusText errorText : String) : String :=
  "External API Error: " ++ toString status ++ " " ++ statusText ++ " - " ++ errorText

/-- The catch branch of callExternalLLM (geminiService.ts): the user-visible turn text
wraps the raw error message, and the session is not ended. -/
def externalFailureResponse (errMsg : String) : GameResponse :=
  { text := "Transmission failure. The external frequency is jammed. (" ++ errMsg ++ ")",
    ended := false }

/-- The success path of callExternalLLM (geminiService.ts): the raw body text is
returned unmodified and the ended heuristic checks the exact-case marker or the
lower-cased literal phrase. -/
def externalLLMResult (rawText : String) : GameResponse :=
  { text := rawText,
    ended := strIncludes rawText "[THE_END]" || strIncludes (toLowerStr rawText) "the end" }

/-- One wire-format chat message (role-tagged) sent to a provider. -/
structure ChatMessage where
  role : String
  content : String
deriving DecidableEq, Repr

/-- Role mapping of the external (OpenAI-compatible) path: narrator to assistant,
protagonist to user. -/
def mapExternalRole (r : Role) : String :=
  if r = Role.model then "assistant" else "user"

/-- Role mapping of the Gemini path (roles are passed through). -/
def mapGeminiRole : Role → String
  | Role.user => "user"
  | Role.model => "model"

/-- The message sequence assembled by the external branch of continueStory
(geminiService.ts): system instruction first, the opening prompt re-injected when the
stored history begins with a narrator turn, then the mapped history (empty texts become
an ellipsis by JavaScript truthiness), then the user action. -/
def externalMessages (history : List StoryMessage) (userAction : String) : List ChatMessage :=
  let openingInjection : List ChatMessage :=
    match history with
    | first :: _ => if first.role = Role.model then [{ role := "user", content := OPENING_PROMPT }] else []
    | [] => []
  { role := "system", content := SYSTEM_INSTRUCTION } :: openingInjection
    ++ history.map (fun m => { role := mapExternalRole m.role, content := if m.text = "" then "..." else m.text })
    ++ [{ role := "user", content := userAction }]

/-- The contents sequence assembled by the Gemini branch of continueStory
(geminiService.ts): the mapped history plus the user action. The system instruction is
passed out of band in the request config, and no opening prompt is injected. -/
def geminiContents (history : List StoryMessage) (userAction : String) : List ChatMessage :=
  history.map (fun m => { role := mapGeminiRole m.role, content := m.text })
    ++ [{ role := "user", content := userAction }]

/-- Attach an asset of the given kind to a message, as the computed-key spread
assignment in updateLastMessageAsset does. -/
def setAsset (m : StoryMessage) (t : AssetType) (d : String) : StoryMessage :=
  match t with
  | AssetType.image => { m with image := some d }
  | AssetType.audio => { m with audio := some d }

/-- updateLastMessageAsset (GameScreen): writes the asset onto the entry at index
length - 1 of the current history, provided that entry exists and is narrator-authored.
The update is positional: it addresses whatever message is last when the asset resolves. -/
def updateLastMessageAsset (t : AssetType) (d : String) : List StoryMessage → List StoryMessage
  | [] => []
  | [m] => if m.role = Role.model then [setAsset m t d] else [m]
  | m :: m2 :: rest => m :: updateLastMessageAsset t d (m2 :: rest)

/-- The session-visible state of the GameScreen component: the transcript, the
in-flight flag, the ended flag, and the contents of the input box. -/
structure SessionState where
  history : List StoryMessage
  isLoading : Bool
  isEnded : Bool
  userInput : String
deriving DecidableEq, Repr

/-- The session-level events the orchestrator handles. An action event carries the
provider reply it resolves with, so one event covers the request/response round trip
(a second text request cannot start while one is in flight). -/
inductive SessionEvent where
  | typeInput (value : String)
  | action (reply : GameResponse)
  | abort
  | assetResolved (t : AssetType) (d : String)
deriving DecidableEq, Repr

/-- handleAction (GameScreen): rejected as a no-op when the trimmed input is empty, a
text request is in flight, or the session has ended; otherwise appends the protagonist
turn and the narrator reply, and marks the session ended when the reply says so. The
second component counts provider text-generation calls issued. -/
def handleAction (s : SessionState) (reply : GameResponse) : SessionState × Nat :=
  if (String.mk (trimList s.userInput.data) = "") || s.isLoading || s.isEnded then
    (s, 0)
  else
    let userMsg : StoryMessage := { role := Role.user, text := s.userInput }
    let aiMsg : StoryMessage := { role := Role.model, text := reply.text }
    ({ history := s.history ++ [userMsg, aiMsg],
       isLoading := false,
       isEnded := if reply.ended then true else s.isEnded,
       userInput := "" }, 1)

/-- handleAbort (GameScreen): stops audio and forces the ended flag to true. -/
def handleAbort (s : SessionState) : SessionState :=
  { s with isEnded := true }

/-- One step of the session orchestrator; the second component counts provider
text-generation calls issued by the step. -/
def step (s : SessionState) : SessionEvent → SessionState × Nat
  | SessionEvent.typeInput v => ({ s with userInput := v }, 0)
  | SessionEvent.action reply => handleAction s reply
  | SessionEvent.abort => (handleAbort s, 0)
  | SessionEvent.assetResolved t d =>
      ({ s with history := updateLastMessageAsset t d s.history }, 0)

/-- The audio playback controller state of the GameScreen: the Web Audio source node
held by audioSourceRef (identified by an id), whether browser speech synthesis is
speaking, and the speaking indicator. -/
structure AudioState where
  source : Option Nat
  speech : Bool
  isPlayingAudio : Bool
deriving DecidableEq, Repr

/-- The observable audio operations, in the order they are invoked. -/
inductive AudioEvent where
  | stopSource (id : Nat)
  | cancelSpeech
  | startSource (id : Nat)
  | startSpeech
deriving DecidableEq, Repr

/-- stopAudio (GameScreen): stops and releases the current source node if one is held,
always cancels browser speech synthesis, and clears the speaking indicator. -/
def stopAudio (s : AudioState) : AudioState × List AudioEvent :=
  let stopEvents := match s.source with
    | some id => [AudioEvent.stopSource id]
    | none => []
  ({ source := none, speech := false, isPlayingAudio := false },
   stopEvents ++ [AudioEvent.cancelSpeech])

/-- playManagedAudio (GameScreen): kills any previous audio, then starts the decoded
source; decodeResult is the node returned by playAudioFromBase64 (none when decoding
or playback setup failed). -/
def playManagedAudio (s : AudioState) (decodeResult : Option Nat) : AudioState × List AudioEvent :=
  let (s1, evs) := stopAudio s
  match decodeResult with
  | some id =>
      ({ s1 with source := some id, isPlayingAudio := true }, evs ++ [AudioEvent.startSource id])
  | none => ({ s1 with isPlayingAudio := false }, evs)

/-- handleAudioPlayback (GameScreen): stop any previous playback first, then either
play the provider-synthesized audio through playManagedAudio (audioData present) or
fall back to browser speech synthesis. playBrowserAudio itself is not under src;
modelled from the spec: the synthesized-speech fallback starts speaking the text and
has no natural ended callback. -/
def handleAudioPlayback (s : AudioState) (audioData : Option (Option Nat)) : AudioState × List AudioEvent :=
  let (s1, evs1) := stopAudio s
  let s2 := { s1 with isPlayingAudio := true }
  match audioData with
  | some decodeResult =>
      let (s3, evs2) := playManagedAudio s2 decodeResult
      (s3, evs1 ++ evs2)
  | none =>
      ({ s2 with speech := true }, evs1 ++ [AudioEvent.startSpeech])

/-- The number of live playback resources: a held source node or active speech. -/
def liveCount (s : AudioState) : Nat :=
  (if s.source.isSome then 1 else 0) + (if s.speech then 1 else 0)

/-- The apostrophe character, U+0027. -/
def aposC : Char := Char.ofNat 39

/-- The double-quote character, U+0022. -/
def quotC : Char := Char.ofNat 34

/-- escapeXml (epub service), per character: the five markup-significant characters
are mapped to their entities, every other character passes through. -/
def escapeChar (c : Char) : List Char :=
  if c = '<' then "&lt;".data
  else if c = '>' then "&gt;".data
  else if c = '&' then "&amp;".data
  else if c = aposC then "&apos;".data
  else if c = quotC then "&quot;".data
  else [c]

/-- escapeXml over a character list (the global regex replace maps each matched
character independently). -/
def escapeList : List Char → List Char
  | [] => []
  | c :: rest => escapeChar c ++ escapeList rest

/-- escapeXml (epub service). -/
def escapeXml (s : String) : String :=
  String.mk (escapeList s.data)

/-- Inverse reading of the five entities, fuelled by the input length; used to state
that escaping is lossless. -/
def unescapeAux : Nat → List Char → List Char
  | _, [] => []
  | 0, c :: rest => c :: rest
  | fuel + 1, c :: rest =>
      if leadsWith "&lt;".data (c :: rest) then '<' :: unescapeAux fuel (rest.drop 3)
      else if leadsWith "&gt;".data (c :: rest) then '>' :: unescapeAux fuel (rest.drop 3)
      else if leadsWith "&amp;".data (c :: rest) then '&' :: unescapeAux fuel (rest.drop 4)
      else if leadsWith "&apos;".data (c :: rest) then aposC :: unescapeAux fuel (rest.drop 5)
      else if leadsWith "&quot;".data (c :: rest) then quotC :: unescapeAux fuel (rest.drop 5)
      else c :: unescapeAux fuel rest

/-- Inverse of the entity escaping. -/
def unescapeXml (l : List Char) : List Char := unescapeAux l.length l

/-- The .replace of newlines by break tags applied to the escaped text (epub service). -/
def replaceNewlines : List Char → List Char
  | [] => []
  | c :: rest => (if c = '\n' then "<br/>".data else [c]) ++ replaceNewlines rest

/-- The css class of a transcript entry in the export (epub service). -/
def roleClass (m : StoryMessage) : String :=
  if m.role = Role.user then "user" else "model"

/-- The display name of a transcript entry in the export (epub service). -/
def roleName (m : StoryMessage) : String :=
  if m.role = Role.user then "The Protagonist" else "The Curator"

/-- The inline image markup for an entry holding an image artifact, named by its
position in the sequence (epub service). -/
def imageHtml (index : Nat) (m : StoryMessage) : String :=
  match m.image with
  | some _ =>
      "<div class=\"scene-image\"><img src=\"images/img_" ++ toString index
        ++ ".png\" alt=\"Scene Visualization\" /></div>"
  | none => ""

/-- The literal markup before the escaped text inside one content block. -/
def messageBlockPre (m : StoryMessage) : String :=
  "\n      <div class=\"message " ++ roleClass m ++ "\">\n        <p class=\"role\"><strong>"
    ++ roleName m ++ "</strong></p>\n        "

/-- The paragraph holding the entity-escaped (then newline-replaced) turn text. -/
def escapedParagraph (m : StoryMessage) : String :=
  String.mk ("<p>".data ++ replaceNewlines (escapeList m.text.data) ++ "</p>".data)

/-- The literal markup after the escaped text inside one content block. -/
def messageBlockPost (index : Nat) (m : StoryMessage) : String :=
  "\n        " ++ imageHtml index m ++ "\n        "
    ++ (if m.role = Role.model then "<hr/>" else "") ++ "\n      </div>\n    "

/-- One content block of the export body (the template literal added to contentBody
for one message, epub service). -/
def messageBlock (index : Nat) (m : StoryMessage) : String :=
  messageBlockPre m ++ escapedParagraph m ++ messageBlockPost index m

/-- The accumulated contentBody over the history with its running index. -/
def contentBodyAux (index : Nat) : List StoryMessage → String
  | [] => ""
  | m :: rest => messageBlock index m ++ contentBodyAux (index + 1) rest

/-- contentBody (epub service): the concatenation of all content blocks. -/
def contentBody (msgs : List StoryMessage) : String :=
  contentBodyAux 0 msgs

/-- The accumulated manifest item lines for messages holding image artifacts. -/
def imageManifestItemsAux (index : Nat) : List StoryMessage → String
  | [] => ""
  | m :: rest =>
      (match m.image with
       | some _ =>
           "    <item id=\"img_" ++ toString index ++ "\" href=\"images/img_" ++ toString index
             ++ ".png\" media-type=\"image/png\"/>\n"
       | none => "") ++ imageManifestItemsAux (index + 1) rest

/-- imageManifestItems (epub service). -/
def imageManifestItems (msgs : List StoryMessage) : String :=
  imageManifestItemsAux 0 msgs

/-- The content document header up to the title element (epub service, xhtmlContent). -/
def XHTML_P1 : String :=
  "<?xml version=\"1.0\" encoding=\"UTF-8\" standalone=\"no\"?>\n<!DOCTYPE html>\n<html xmlns=\"http://www.w3.org/1999/xhtml\" xmlns:epub=\"http://www.idpf.org/2007/ops\" xml:lang=\"en\" lang=\"en\">\n<head>\n  "

/-- The style block and body opening between the title element and the h1 title. -/
def XHTML_P2 : String :=
  "\n  <style>\n    body \x7b font-family: monospace; background-color: #fff; color: #000; line-height: 1.5; \x7d\n    h1 \x7b text-align: center; text-transform: uppercase; border-bottom: 2px solid #000; padding-bottom: 10px; \x7d\n    .message \x7b margin-bottom: 20px; \x7d\n    .role \x7b font-size: 0.8em; color: #555; text-transform: uppercase; letter-spacing: 1px; margin-bottom: 5px; \x7d\n    .user \x7b text-align: right; padding-left: 20%; \x7d\n    .model \x7b text-align: left; padding-right: 10%; \x7d\n    .scene-image \x7b text-align: center; margin: 15px 0; \x7d\n    .scene-image img \x7b max-width: 100%; border: 1px solid #ccc; filter: grayscale(100%) contrast(120%); \x7d\n    hr \x7b border: 0; border-top: 1px dashed #ccc; margin: 20px 0; \x7d\n  </style>\n</head>\n<body>\n  <h1>"

/-- Between the h1 title and the recorded date. -/
def XHTML_P3 : String :=
  "</h1>\n  <p style=\"text-align: center; font-style: italic; margin-bottom: 40px;\">Recorded: "

/-- Between the recorded date and the content body. -/
def XHTML_P4 : String := "</p>\n  "

/-- The closing of the content document. -/
def XHTML_P5 : String := "\n</body>\n</html>"

/-- xhtmlContent (epub service): the styled content document; the title is interpolated
into the title element and the h1 heading without escaping, the date string into the
recorded line, and the content body between body tags. -/
def xhtmlContent (title dateStr : String) (msgs : List StoryMessage) : String :=
  XHTML_P1 ++ ("<title>" ++ title ++ "</title>")
    ++ (XHTML_P2 ++ title ++ XHTML_P3 ++ dateStr ++ XHTML_P4)
    ++ contentBody msgs ++ XHTML_P5

/-- The package metadata header up to the title element (epub service, opfContent). -/
def OPF_P1 : String :=
  "<?xml version=\"1.0\" encoding=\"UTF-8\"?>\n<package xmlns=\"http://www.idpf.org/2007/opf\" unique-identifier=\"BookId\" version=\"3.0\">\n  <metadata xmlns:dc=\"http://purl.org/dc/elements/1.1/\">\n    "

/-- Between the title element and the interpolated uuid. -/
def OPF_P2 : String :=
  "\n    <dc:creator>Twisted Logic AI</dc:creator>\n    <dc:language>en</dc:language>\n    <dc:identifier id=\"BookId\">urn:uuid:"

/-- Between the uuid and the modified timestamp. -/
def OPF_P3 : String :=
  "</dc:identifier>\n    <meta property=\"dcterms:modified\">"

/-- Between the timestamp and the image manifest items. -/
def OPF_P4 : String :=
  "</meta>\n  </metadata>\n  <manifest>\n    <item id=\"story\" href=\"story.xhtml\" media-type=\"application/xhtml+xml\"/>\n    <item id=\"ncx\" href=\"toc.ncx\" media-type=\"application/x-dtbncx+xml\"/>\n"

/-- The closing of the package document. -/
def OPF_P5 : String :=
  "\n  </manifest>\n  <spine toc=\"ncx\">\n    <itemref idref=\"story\"/>\n  </spine>\n</package>"

/-- opfContent (epub service): the package metadata; the title is interpolated into the
dc title element without escaping. -/
def opfContent (title uuid timestamp : String) (msgs : List StoryMessage) : String :=
  OPF_P1 ++ ("<dc:title>" ++ title ++ "</dc:title>")
    ++ (OPF_P2 ++ uuid ++ OPF_P3 ++ timestamp ++ OPF_P4)
    ++ imageManifestItems msgs ++ OPF_P5

/-- The navigation document header up to the doc title text element (epub service,
ncxContent). -/
def NCX_P1 : String :=
  "<?xml version=\"1.0\" encoding=\"UTF-8\"?>\n<ncx xmlns=\"http://www.daisy.org/z3986/2005/ncx/\" version=\"2005-1\">\n  <head>\n    <meta name=\"dtb:uid\" content=\"urn:uuid:12345\"/>\n    <meta name=\"dtb:depth\" content=\"1\"/>\n    <meta name=\"dtb:totalPageCount\" content=\"0\"/>\n    <meta name=\"dtb:maxPageNumber\" content=\"0\"/>\n  </head>\n  <docTitle>\n    "

/-- The closing of the navigation document. -/
def NCX_P2 : String :=
  "\n  </docTitle>\n  <navMap>\n    <navPoint id=\"navPoint-1\" playOrder=\"1\">\n      <navLabel>\n        <text>The Story</text>\n      </navLabel>\n      <content src=\"story.xhtml\"/>\n    </navPoint>\n  </navMap>\n</ncx>"

/-- ncxContent (epub service): the table of contents; the title is interpolated into
the doc title text element without escaping. -/
def ncxContent (title : String) : String :=
  NCX_P1 ++ ("<text>" ++ title ++ "</text>") ++ NCX_P2

theorem strData_append (s t : String) : (s ++ t).data = s.data ++ t.data := by
  cases s
  cases t
  rfl

theorem updateLast_cons (t : AssetType) (d : String) (m : StoryMessage)
    (l : List StoryMessage) (h : l ≠ []) :
    updateLastMessageAsset t d (m :: l) = m :: updateLastMessageAsset t d l := by
  cases l with
  | nil => exact absurd rfl h
  | cons a l2 => rfl

/-- Claim C1 is refuted by the positional back-fill: the image requested for turn 0
resolves after two further turns were appended, and lands on turn 2 (the latest
narrator turn), not on turn 0 that requested it. -/
theorem C1_backfill_misattribution_counterexample :
    (let s0 : SessionState :=
      { history := [{ role := Role.model, text := "The corridor hums." }],
        isLoading := false, isEnded := false, userInput := "" }
     let s1 := (step s0 (SessionEvent.typeInput "open the door")).1
     let s2 := (step s1 (SessionEvent.action { text := "The door opens onto a void.", ended := false })).1
     let s3 := (step s2 (SessionEvent.assetResolved AssetType.image "IMG0")).1
     s3.history.map (fun m => m.image)) = [none, none, some "IMG0"] := by decide

/-- Claim C1 amended: a resolving asset is attached to whatever message is last in the
history at resolution time, provided it is narrator-authored, and is discarded
otherwise; earlier messages are never updated. -/
theorem C1_backfill_targets_last_turn (pre : List StoryMessage) (last : StoryMessage)
    (t : AssetType) (d : String) :
    updateLastMessageAsset t d (pre ++ [last]) =
      pre ++ [if last.role = Role.model then setAsset last t d else last] := by
  induction pre with
  | nil =>
      simp only [List.nil_append, updateLastMessageAsset]
      split <;> rfl
  | cons m pre ih =>
      rw [List.cons_append, updateLast_cons t d m (pre ++ [last]) (by simp), ih]
      simp

/-- Claim C2 is refuted on the Gemini path: a content-policy (safety filter) failure
returns ended, so the session does end. -/
theorem C2_content_policy_ends_counterexample :
    (handleGeminiError "Candidate was blocked").ended = true ∧
    (handleGeminiError "Candidate was blocked").text =
      "The narrative veered into forbidden territory. The censors have cut the feed. Try a different action." := by
  exact ⟨rfl, by decide⟩

/-- Claim C2 amended: the ended flag of a text-generation failure depends on the
adapter path, not on the error class: every Gemini-path failure ends the session
(content-policy failures included), and every external-path failure leaves the session
open (credential and quota failures included). -/
theorem C2_failure_ended_by_path :
    (∀ eMsg, (handleGeminiError eMsg).ended = true) ∧
    (∀ errMsg, (externalFailureResponse errMsg).ended = false) :=
  ⟨fun _ => rfl, fun _ => rfl⟩

/-- Claim C3: both two-candidate fallback chains return the first success after
exactly k attempts without consulting later candidates, and on exhaustion the text
chain returns the fixed non-empty in-fiction message with ended false while the image
chain returns undefined, after exactly two attempts. An empty payload counts as
failure of the first image candidate (JavaScript truthiness). -/
theorem C3_fallback_chains :
    (∀ r d, generateFreeText (some r) d = (r, 1)) ∧
    (∀ r, generateFreeText none (some r) = (r, 2)) ∧
    generateFreeText none none = (FREE_TEXT_EXHAUSTED, 2) ∧
    FREE_TEXT_EXHAUSTED.ended = false ∧
    FREE_TEXT_EXHAUSTED.text ≠ "" ∧
    (∀ u p, generateFreeImage (some u) p =
      if u.data.isEmpty then (p, 2) else (some u, 1)) ∧
    (∀ p, generateFreeImage none p = (p, 2)) ∧
    generateFreeImage none none = (none, 2) := by
  refine ⟨fun r d => rfl, fun r => rfl, rfl, rfl, by decide, ?_, fun p => rfl, rfl⟩
  intro u p
  cases h : u.data.isEmpty <;> simp [generateFreeImage, jsTruthy, h]

/-- Claim C4 is refuted: the free-text service detects a lower-case sentinel but its
stripping is exact-case only, so the lower-case marker survives into the displayed
text, and the external path detects the exact-case sentinel without stripping it. -/
theorem C4_marker_not_stripped_counterexample :
    (pollinationsResult "You perish. [the_end]").ended = true ∧
    strIncludes (pollinationsResult "You perish. [the_end]").text "[the_end]" = true ∧
    (externalLLMResult "You perish. [THE_END]").ended = true ∧
    strIncludes (externalLLMResult "You perish. [THE_END]").text "[THE_END]" = true := by
  decide

/-- Claim C4 amended: detection in the free-text service is case-insensitive (it only
reads the lower-cased text), but only the exact-case markers are stripped before
display, so differently-cased markers survive; the external path returns the raw text
without any stripping and its sentinel detection is exact-case (only the literal end
phrase is lower-cased). -/
theorem C4_ended_detection_and_stripping :
    (∀ s t : String, toLowerStr s = toLowerStr t → checkEnded s = checkEnded t) ∧
    cleanResponse "You perish. [THE_END]" = "You perish." ∧
    (cleanResponse "You perish. [the_end]" = "You perish. [the_end]" ∧
      checkEnded "You perish. [the_end]" = true) ∧
    (∀ raw, (externalLLMResult raw).text = raw) ∧
    (externalLLMResult "You perish. [the_end]").ended = false := by
  refine ⟨?_, by decide, ⟨by decide, by decide⟩, fun _ => rfl, by decide⟩
  intro s t h
  unfold checkEnded
  rw [h]

/-- Witness for the case-insensitivity hypothesis of the amended C4 theorem. -/
theorem C4_ended_detection_and_stripping_witness :
    checkEnded "ThE EnD. You lose." = checkEnded "the end. You lose." :=
  C4_ended_detection_and_stripping.1 "ThE EnD. You lose." "the end. You lose." (by decide)

/-- Claim C5 is refuted: on the external path the user-visible turn text embeds the
raw exception message, which itself carries the HTTP status code and body. -/
theorem C5_raw_error_surfaced_counterexample :
    strIncludes (externalFailureResponse
      (externalApiErrorMessage 500 "Internal Server Error" "upstream exploded")).text
      "External API Error: 500 Internal Server Error - upstream exploded" = true := by
  decide

/-- Claim C5 amended: the Gemini path always maps failures to one of five fixed
diegetic messages, but the external path wraps the raw error message verbatim inside
its diegetic failure text. -/
theorem C5_failure_text_shape :
    (∀ errMsg, containsStr (externalFailureResponse errMsg).text errMsg) ∧
    (∀ eMsg, (handleGeminiError eMsg).text ∈ GEMINI_ERROR_MESSAGES) := by
  constructor
  · intro errMsg
    refine ⟨"Transmission failure. The external frequency is jammed. (".data, ")".data, ?_⟩
    simp [externalFailureResponse, strData_append]
  · intro eMsg
    show geminiErrorText eMsg ∈ GEMINI_ERROR_MESSAGES
    unfold geminiErrorText
    repeat' split
    all_goals decide

/-- Claim C6 is refuted on the Gemini branch: for the same narrator-first history and
action, the external branch re-injects the opening prompt but the Gemini branch's
message sequence contains neither the opening prompt nor the system instruction. -/
theorem C6_gemini_no_reinjection_counterexample :
    (geminiContents [{ role := Role.model, text := "The fog rolls in." }] "look").all
        (fun m => !(m.content == OPENING_PROMPT) && !(m.content == SYSTEM_INSTRUCTION)) = true ∧
    (externalMessages [{ role := Role.model, text := "The fog rolls in." }] "look").any
        (fun m => m.content == OPENING_PROMPT) = true := by
  decide

/-- Claim C6 amended: only the external branch of continueStory prepends the system
instruction to the message sequence and re-injects the scene-opening prompt when the
stored history starts with a narrator turn; the Gemini branch sends only the mapped
history plus the action, so the opening prompt never appears there unless it already
occurs in the history or the action. -/
theorem C6_reinjection_external_only (first : StoryMessage) (rest : List StoryMessage)
    (action : String) (h : first.role = Role.model) :
    externalMessages (first :: rest) action =
      { role := "system", content := SYSTEM_INSTRUCTION }
        :: { role := "user", content := OPENING_PROMPT }
        :: ((first :: rest).map (fun m =>
              { role := mapExternalRole m.role,
                content := if m.text = "" then "..." else m.text })
            ++ [{ role := "user", content := action }]) ∧
    (∀ (hist : List StoryMessage) (act : String),
      (∀ m ∈ hist, m.text ≠ OPENING_PROMPT) → act ≠ OPENING_PROMPT →
      ∀ msg ∈ geminiContents hist act, msg.content ≠ OPENING_PROMPT) := by
  constructor
  · simp [externalMessages, h]
  · intro hist act hh ha msg hm
    simp only [geminiContents, List.mem_append, List.mem_map, List.mem_singleton] at hm
    rcases hm with ⟨m, hmem, rfl⟩ | rfl
    · exact hh m hmem
    · exact ha

/-- Witness for the narrator-first hypothesis of the amended C6 theorem. -/
theorem C6_reinjection_external_only_witness :
    externalMessages [{ role := Role.model, text := "The fog rolls in." }] "look" =
      [{ role := "system", content := SYSTEM_INSTRUCTION },
       { role := "user", content := OPENING_PROMPT },
       { role := "assistant", content := "The fog rolls in." },
       { role := "user", content := "look" }] :=
  (C6_reinjection_external_only { role := Role.model, text := "The fog rolls in." } []
    "look" rfl).1

/-- Claim C7: the ended flag is monotonic under every session event, and once the
session has ended a submit-action event leaves the state untouched (no turn appended,
no input consumed) and issues zero provider calls. -/
theorem C7_ended_monotonic_and_noop (s : SessionState) (e : SessionEvent)
    (hend : s.isEnded = true) :
    (step s e).1.isEnded = true ∧
    (∀ reply, step s (SessionEvent.action reply) = (s, 0)) := by
  constructor
  · cases e with
    | typeInput v => simpa using hend
    | action reply => simp [step, handleAction, hend]
    | abort => simp [step, handleAbort]
    | assetResolved t d => simpa using hend
  · intro reply
    simp [step, handleAction, hend]

/-- Witness for the ended hypothesis of the C7 theorem. -/
theorem C7_ended_monotonic_and_noop_witness :
    (step { history := [], isLoading := false, isEnded := true, userInput := "go" }
        SessionEvent.abort).1.isEnded = true ∧
    step { history := [], isLoading := false, isEnded := true, userInput := "go" }
        (SessionEvent.action { text := "More.", ended := false }) =
      ({ history := [], isLoading := false, isEnded := true, userInput := "go" }, 0) :=
  ⟨(C7_ended_monotonic_and_noop _ SessionEvent.abort rfl).1,
   (C7_ended_monotonic_and_noop _ SessionEvent.abort rfl).2
     { text := "More.", ended := false }⟩

/-- Claim C8: starting playback while a source node is live first emits its stop (and
the speech-synthesis cancel) and only then the new start, afterwards exactly one
playback resource is live, and every playback operation leaves at most one resource
live. -/
theorem C8_single_playback (s : AudioState) (prevId newId : Nat)
    (hs : s.source = some prevId) :
    handleAudioPlayback s (some (some newId)) =
      ({ source := some newId, speech := false, isPlayingAudio := true },
       [AudioEvent.stopSource prevId, AudioEvent.cancelSpeech,
        AudioEvent.cancelSpeech, AudioEvent.startSource newId]) ∧
    handleAudioPlayback s none =
      ({ source := none, speech := true, isPlayingAudio := true },
       [AudioEvent.stopSource prevId, AudioEvent.cancelSpeech, AudioEvent.startSpeech]) ∧
    liveCount (handleAudioPlayback s (some (some newId))).1 = 1 ∧
    liveCount (handleAudioPlayback s none).1 = 1 ∧
    (∀ d, liveCount (handleAudioPlayback s d).1 ≤ 1) ∧
    liveCount (stopAudio s).1 = 0 := by
  refine ⟨?_, ?_, ?_, ?_, ?_, rfl⟩
  · simp [handleAudioPlayback, stopAudio, playManagedAudio, hs]
  · simp [handleAudioPlayback, stopAudio, hs]
  · simp [handleAudioPlayback, stopAudio, playManagedAudio, hs, liveCount]
  · simp [handleAudioPlayback, stopAudio, hs, liveCount]
  · intro d
    cases d with
    | none => simp [handleAudioPlayback, stopAudio, liveCount]
    | some r =>
        cases r <;> simp [handleAudioPlayback, stopAudio, playManagedAudio, liveCount]

/-- Witness for the live-source hypothesis of the C8 theorem. -/
theorem C8_single_playback_witness :
    handleAudioPlayback { source := some 0, speech := false, isPlayingAudio := true }
        (some (some 1)) =
      ({ source := some 1, speech := false, isPlayingAudio := true },
       [AudioEvent.stopSource 0, AudioEvent.cancelSpeech,
        AudioEvent.cancelSpeech, AudioEvent.startSource 1]) :=
  (C8_single_playback { source := some 0, speech := false, isPlayingAudio := true }
    0 1 rfl).1


theorem escapeChar_no_raw (a c : Char) (h : c ∈ escapeChar a) :
    c ≠ '<' ∧ c ≠ '>' ∧ c ≠ aposC ∧ c ≠ quotC := by
  unfold escapeChar at h
  repeat' split at h
  all_goals try (fin_cases h <;> decide)
  simp at h
  subst h
  exact ⟨by assumption, by assumption, by assumption, by assumption⟩

theorem escapeList_no_raw (l : List Char) (c : Char) (h : c ∈ escapeList l) :
    c ≠ '<' ∧ c ≠ '>' ∧ c ≠ aposC ∧ c ≠ quotC := by
  induction l with
  | nil => simp [escapeList] at h
  | cons a l ih =>
      simp only [escapeList, List.mem_append] at h
      rcases h with h | h
      · exact escapeChar_no_raw a c h
      · exact ih h

theorem escapeChar_length_pos (c : Char) : 0 < (escapeChar c).length := by
  unfold escapeChar
  repeat' split
  all_goals first | decide | simp

theorem unescapeAux_escape : ∀ (l : List Char) (fuel : Nat),
    (escapeList l).length ≤ fuel → unescapeAux fuel (escapeList l) = l := by
  intro l
  induction l with
  | nil => intro fuel _; cases fuel <;> rfl
  | cons c rest ih =>
      intro fuel hf
      have hpos := escapeChar_length_pos c
      have hstep : (escapeList rest).length < (escapeList (c :: rest)).length := by
        simp only [escapeList, List.length_append]
        omega
      by_cases h1 : c = '<'
      · subst h1
        cases fuel with
        | zero => omega
        | succ f => exact congrArg (List.cons '<') (ih f (by omega))
      · by_cases h2 : c = '>'
        · subst h2
          cases fuel with
          | zero => omega
          | succ f => exact congrArg (List.cons '>') (ih f (by omega))
        · by_cases h3 : c = '&'
          · subst h3
            cases fuel with
            | zero => omega
            | succ f => exact congrArg (List.cons '&') (ih f (by omega))
          · by_cases h4 : c = aposC
            · subst h4
              cases fuel with
              | zero => omega
              | succ f => exact congrArg (List.cons aposC) (ih f (by omega))
            · by_cases h5 : c = quotC
              · subst h5
                cases fuel with
                | zero => omega
                | succ f => exact congrArg (List.cons quotC) (ih f (by omega))
              · have hred : escapeList (c :: rest) = c :: escapeList rest := by
                  simp only [escapeList, escapeChar, if_neg h1, if_neg h2, if_neg h3,
                    if_neg h4, if_neg h5, List.cons_append, List.nil_append]
                rw [hred] at hf ⊢
                simp only [List.length_cons] at hf
                cases fuel with
                | zero => omega
                | succ f =>
                    have hfalse : ('&' == c) = false := by
                      simp [Ne.symm h3]
                    simp only [unescapeAux, leadsWith, hfalse, Bool.false_and]
                    rw [ih f (by omega)]
                    simp

theorem unescape_escape (l : List Char) : unescapeXml (escapeList l) = l :=
  unescapeAux_escape l (escapeList l).length (Nat.le_refl _)

theorem contentBodyAux_contains (msgs : List StoryMessage) :
    ∀ (i idx : Nat) (h : idx < msgs.length),
    ∃ pre post, (contentBodyAux i msgs).data =
      pre ++ (escapedParagraph (msgs.get ⟨idx, h⟩)).data ++ post := by
  induction msgs with
  | nil => intro i idx h; exact absurd h (by simp)
  | cons m rest ih =>
      intro i idx h
      cases idx with
      | zero =>
          refine ⟨(messageBlockPre m).data,
            (messageBlockPost i m).data ++ (contentBodyAux (i + 1) rest).data, ?_⟩
          simp [contentBodyAux, messageBlock, strData_append, List.append_assoc]
      | succ n =>
          obtain ⟨pre, post, hp⟩ := ih (i + 1) n (by simpa using h)
          refine ⟨(messageBlock i m).data ++ pre, post, ?_⟩
          simp [contentBodyAux, strData_append, hp, List.append_assoc]

theorem xhtml_contains_paragraph (title dateStr : String) (msgs : List StoryMessage)
    (idx : Nat) (h : idx < msgs.length) :
    containsStr (xhtmlContent title dateStr msgs) (escapedParagraph (msgs.get ⟨idx, h⟩)) := by
  obtain ⟨pre, post, hp⟩ := contentBodyAux_contains msgs 0 idx h
  refine ⟨(XHTML_P1 ++ ("<title>" ++ title ++ "</title>")
      ++ (XHTML_P2 ++ title ++ XHTML_P3 ++ dateStr ++ XHTML_P4)).data ++ pre,
    post ++ XHTML_P5.data, ?_⟩
  simp [xhtmlContent, contentBody, strData_append, hp, List.append_assoc]

theorem containsStr_middle (hay a b c : String) (h : containsStr hay (a ++ b ++ c)) :
    containsStr hay b := by
  obtain ⟨pre, post, hp⟩ := h
  refine ⟨pre ++ a.data, c.data ++ post, ?_⟩
  rw [hp]
  simp [strData_append, List.append_assoc]

/-- Claim C9: escaping is lossless (the entity reading inverts it), escaped text
contains no raw angle bracket or quote characters, the attack turn text is escaped to
the exact entity string, every turn's escaped paragraph is embedded verbatim in the
exported content document, and the raw script tag does not occur in that document. -/
theorem C9_export_escapes_turn_text :
    (∀ l : List Char, unescapeXml (escapeList l) = l) ∧
    (∀ (l : List Char) (c : Char), c ∈ escapeList l →
      c ≠ '<' ∧ c ≠ '>' ∧ c ≠ aposC ∧ c ≠ quotC) ∧
    escapeXml (String.mk ['<', 's', 'c', 'r', 'i', 'p', 't', '>', '&', quotC, aposC]) =
      "&lt;script&gt;&amp;&quot;&apos;" ∧
    (∀ (title dateStr : String) (msgs : List StoryMessage) (idx : Nat)
      (h : idx < msgs.length),
      containsStr (xhtmlContent title dateStr msgs) (escapedParagraph (msgs.get ⟨idx, h⟩))) ∧
    strIncludes (xhtmlContent "Twisted Logic Episode" "1/1/2026"
        [{ role := Role.model,
           text := String.mk ['<', 's', 'c', 'r', 'i', 'p', 't', '>', '&', quotC, aposC] }])
      "<script>" = false := by
  exact ⟨unescape_escape, escapeList_no_raw, by decide, xhtml_contains_paragraph, by decide⟩

/-- Witness for the index hypothesis of the C9 theorem. -/
theorem C9_export_escapes_turn_text_witness :
    containsStr
      (xhtmlContent "Twisted Logic Episode" "1/1/2026"
        [{ role := Role.model, text := "Run." }])
      (escapedParagraph { role := Role.model, text := "Run." }) :=
  C9_export_escapes_turn_text.2.2.2.1 "Twisted Logic Episode" "1/1/2026"
    [{ role := Role.model, text := "Run." }] 0 (by decide)

/-- Claim C10: the export encoder interpolates the title verbatim, with no entity
escaping, into the content document title element, the package metadata title element,
and the table-of-contents doc title, so a title containing raw markup characters
appears unescaped in the generated markup. -/
theorem C10_title_embedded_verbatim :
    (∀ (title dateStr : String) (msgs : List StoryMessage),
      containsStr (xhtmlContent title dateStr msgs) ("<title>" ++ title ++ "</title>")) ∧
    (∀ (title uuid timestamp : String) (msgs : List StoryMessage),
      containsStr (opfContent title uuid timestamp msgs)
        ("<dc:title>" ++ title ++ "</dc:title>")) ∧
    (∀ title : String, containsStr (ncxContent title) ("<text>" ++ title ++ "</text>")) ∧
    containsStr
      (xhtmlContent
        (String.mk ['<', 'E', 'v', 'i', 'l', ' ', '&', ' ', 'T', 'i', 't', 'l', 'e', '>'])
        "1/1/2026" [])
      (String.mk ['<', 'E', 'v', 'i', 'l', ' ', '&', ' ', 'T', 'i', 't', 'l', 'e', '>']) := by
  have hx : ∀ (title dateStr : String) (msgs : List StoryMessage),
      containsStr (xhtmlContent title dateStr msgs) ("<title>" ++ title ++ "</title>") := by
    intro title dateStr msgs
    refine ⟨XHTML_P1.data,
      (XHTML_P2 ++ title ++ XHTML_P3 ++ dateStr ++ XHTML_P4).data
        ++ (contentBody msgs).data ++ XHTML_P5.data, ?_⟩
    simp [xhtmlContent, strData_append, List.append_assoc]
  refine ⟨hx, ?_, ?_, ?_⟩
  · intro title uuid timestamp msgs
    refine ⟨OPF_P1.data,
      (OPF_P2 ++ uuid ++ OPF_P3 ++ timestamp ++ OPF_P4).data
        ++ (imageManifestItems msgs).data ++ OPF_P5.data, ?_⟩
    simp [opfContent, strData_append, List.append_assoc]
  · intro title
    refine ⟨NCX_P1.data, NCX_P2.data, ?_⟩
    simp [ncxContent, strData_append, List.append_assoc]
  · exact containsStr_middle _ "<title>" _ "</title>" (hx _ "1/1/2026" [])
